import Mathlib

/-!
Verification of the RoboHack browser front end.

The repository contains a chat widget controller in two variants
(static/script.js and an unnamed sibling file, embedded here as
handleSearch and handleSearchP0), plus an ambient 3D background script
(static/threejs-bg.js, also in two variants: a pumpkin spawner and a
robot loader with asset fallback).  All numeric code is embedded over
the rationals; DOM state is embedded as explicit records.
-/

/-- The DOM/UI state the chat widget reads and writes: the text input's
value, the visibility of the loading indicator (the show class on the
loading element), the visibility of the response area, and the response
area's text content. -/
structure UIState where
  inputValue : String
  loadingShown : Bool
  responseShown : Bool
  responseText : String
  deriving Repr, DecidableEq

/-- The parsed JSON body of a chat reply, per the backend contract:
success is a boolean, response and error are optional strings
(absent fields are modelled as none, matching undefined in JS). -/
structure ChatData where
  success : Bool
  response : Option String
  error : Option String
  deriving Repr, DecidableEq

/-- Outcome of the fetch to /api/chat as the handler observes it:
either the promise rejects (network failure), or it resolves with an
HTTP status and a body.  A body of none means response.json() rejected
(malformed JSON); some d means the body parsed to d. -/
inductive FetchOutcome where
  | rejected : FetchOutcome
  | resolved : Nat → Option ChatData → FetchOutcome
  deriving Repr, DecidableEq

/-- Result of running a handler: the final UI state, plus the message
posted to /api/chat (none when no network request was made). -/
structure SearchResult where
  ui : UIState
  fetchSent : Option String
  deriving Repr, DecidableEq

/-- Whitespace as recognised by JS String.prototype.trim, restricted to
the ASCII characters that occur in practice (space, tab, newline,
carriage return). -/
def jsIsWhitespace (c : Char) : Bool :=
  c == ' ' || c == '\t' || c == '\n' || c == '\r'

/-- Embedding of JS String.prototype.trim: strip leading and trailing
whitespace.  Defined structurally on the character list so it evaluates
in the kernel. -/
def jsTrim (s : String) : String :=
  (((s.data.dropWhile jsIsWhitespace).reverse.dropWhile jsIsWhitespace).reverse).asString

/-- JS truthiness fallback for strings: e || d is d when e is undefined
or the empty string, otherwise e.  Embeds data.error || default. -/
def jsOr (e : Option String) (d : String) : String :=
  match e with
  | none => d
  | some s => if s = "" then d else s

/-- Assigning a possibly-undefined JS string to textContent: undefined
is coerced to the string rendered by String(undefined). -/
def domString (s : Option String) : String :=
  match s with
  | none => "undefined"
  | some s => s

/-- Embedding of handleSearch from static/script.js (lines 7-47).
Trims the input; returns unchanged with no request when the trimmed
query is empty; otherwise clears the input, shows loading, hides the
response area, performs the fetch, and renders the outcome: on
success:true the response text, on success:false an error message built
with jsOr, and on rejection or a JSON parse failure the fixed
connection-error message.  The HTTP status is never inspected. -/
def handleSearch (ui : UIState) (outcome : FetchOutcome) : SearchResult :=
  let query := jsTrim ui.inputValue
  if query = "" then ⟨ui, none⟩
  else
    let ui1 : UIState :=
      { ui with inputValue := "", loadingShown := true, responseShown := false }
    match outcome with
    | .rejected =>
        ⟨{ ui1 with loadingShown := false,
                    responseText := "Error: Could not connect to server",
                    responseShown := true }, some query⟩
    | .resolved _status body =>
        match body with
        | none =>
            ⟨{ ui1 with loadingShown := false,
                        responseText := "Error: Could not connect to server",
                        responseShown := true }, some query⟩
        | some data =>
            let ui2 : UIState := { ui1 with loadingShown := false }
            if data.success then
              ⟨{ ui2 with responseText := domString data.response,
                          responseShown := true }, some query⟩
            else
              ⟨{ ui2 with responseText :=
                            "Error: " ++ jsOr data.error "Something went wrong",
                          responseShown := true }, some query⟩

/-- Embedding of handleSearch from the unnamed variant file
(lines 17-53).  Same guard, input clearing and loading toggles, but in
the success:true branch the display lines are commented out (only a
console.log runs) and in the success:false branch everything is
commented out, so the response area's text and visibility are left as
the loading phase set them.  Only the catch branch (rejection or JSON
parse failure) shows the response area and types the connection-error
message into it via typeText, which it awaits to completion. -/
def handleSearchP0 (ui : UIState) (outcome : FetchOutcome) : SearchResult :=
  let query := jsTrim ui.inputValue
  if query = "" then ⟨ui, none⟩
  else
    let ui1 : UIState :=
      { ui with inputValue := "", loadingShown := true, responseShown := false }
    match outcome with
    | .rejected =>
        ⟨{ ui1 with loadingShown := false,
                    responseShown := true,
                    responseText := "Error: Could not connect to server" }, some query⟩
    | .resolved _status body =>
        match body with
        | none =>
            ⟨{ ui1 with loadingShown := false,
                        responseShown := true,
                        responseText := "Error: Could not connect to server" }, some query⟩
        | some data =>
            let ui2 : UIState := { ui1 with loadingShown := false }
            if data.success then ⟨ui2, some query⟩
            else ⟨ui2, some query⟩

/-- C4: submitting a blank query is a no-op: no request, UI untouched, in
both variants of the handler. -/
theorem handleSearch_blank_noop (ui : UIState) (outcome : FetchOutcome)
    (h : jsTrim ui.inputValue = "") :
    handleSearch ui outcome = ⟨ui, none⟩ ∧ handleSearchP0 ui outcome = ⟨ui, none⟩ := by
  constructor <;> simp [handleSearch, handleSearchP0, h]

/-- Witness for handleSearch_blank_noop at a whitespace-only input. -/
theorem handleSearch_blank_noop_witness :
    (jsTrim "  " = "")
    ∧ handleSearch ⟨"  ", true, true, "old"⟩ .rejected = ⟨⟨"  ", true, true, "old"⟩, none⟩ :=
  ⟨by decide,
   (handleSearch_blank_noop ⟨"  ", true, true, "old"⟩ .rejected (by decide)).1⟩

/-- C1 counterexample: in the unnamed variant the success branch only
logs to the console, so a submission resolving with success true and
response hello leaves the response area empty and hidden. -/
theorem handleSearchP0_success_not_displayed :
    (handleSearchP0 ⟨"hi", false, false, ""⟩
        (.resolved 200 (some ⟨true, some "hello", none⟩))).ui.responseText ≠ "hello"
    ∧ (handleSearchP0 ⟨"hi", false, false, ""⟩
        (.resolved 200 (some ⟨true, some "hello", none⟩))).ui.responseShown = false := by
  decide

/-- C1 (amended): in static/script.js, a submission whose fetch resolves
with success true and response string r sets the response area text to
exactly r, shows the response area, and hides the loading indicator. -/
theorem handleSearch_success_displays (ui : UIState) (r : String) (status : Nat)
    (err : Option String) (h : jsTrim ui.inputValue ≠ "") :
    (handleSearch ui (.resolved status (some ⟨true, some r, err⟩))).ui.responseText = r
    ∧ (handleSearch ui (.resolved status (some ⟨true, some r, err⟩))).ui.responseShown = true
    ∧ (handleSearch ui (.resolved status (some ⟨true, some r, err⟩))).ui.loadingShown = false := by
  simp [handleSearch, h, domString]

/-- Witness for handleSearch_success_displays on the mocked body of the
spec's test: success true, response hello. -/
theorem handleSearch_success_displays_witness :
    (jsTrim "hi" ≠ "")
    ∧ (handleSearch ⟨"hi", false, false, ""⟩
        (.resolved 200 (some ⟨true, some "hello", none⟩))).ui.responseText = "hello" :=
  ⟨by decide,
   (handleSearch_success_displays ⟨"hi", false, false, ""⟩ "hello" 200 none (by decide)).1⟩

/-- C2 counterexample: in the unnamed variant the failure branch is
entirely commented out, so a body with success false and error bad input
leaves the response area empty and hidden rather than showing the error. -/
theorem handleSearchP0_failure_not_displayed :
    (handleSearchP0 ⟨"hi", false, false, ""⟩
        (.resolved 200 (some ⟨false, none, some "bad input"⟩))).ui.responseText
      ≠ "Error: bad input"
    ∧ (handleSearchP0 ⟨"hi", false, false, ""⟩
        (.resolved 200 (some ⟨false, none, some "bad input"⟩))).ui.responseShown = false := by
  decide

/-- C2 (amended): in static/script.js, a submission resolving with
success false displays Error: followed by the error field when present
and non-empty, otherwise the default message, with loading hidden and
the response area shown. -/
theorem handleSearch_failure_displays (ui : UIState) (status : Nat) (resp : Option String)
    (h : jsTrim ui.inputValue ≠ "") :
    (∀ e : String, e ≠ "" →
      (handleSearch ui (.resolved status (some ⟨false, resp, some e⟩))).ui.responseText
        = "Error: " ++ e)
    ∧ (handleSearch ui (.resolved status (some ⟨false, resp, none⟩))).ui.responseText
        = "Error: Something went wrong"
    ∧ (handleSearch ui (.resolved status (some ⟨false, resp, some ""⟩))).ui.responseText
        = "Error: Something went wrong"
    ∧ (∀ e : Option String,
        (handleSearch ui (.resolved status (some ⟨false, resp, e⟩))).ui.loadingShown = false
        ∧ (handleSearch ui (.resolved status (some ⟨false, resp, e⟩))).ui.responseShown
            = true) := by
  refine ⟨fun e he => ?_, ?_, ?_, fun e => ⟨?_, ?_⟩⟩ <;>
    simp [handleSearch, h, jsOr, *]

/-- Witness for handleSearch_failure_displays on the spec's mocked body:
success false, error bad input. -/
theorem handleSearch_failure_displays_witness :
    (jsTrim "hi" ≠ "")
    ∧ (handleSearch ⟨"hi", false, false, ""⟩
        (.resolved 200 (some ⟨false, none, some "bad input"⟩))).ui.responseText
      = "Error: bad input" :=
  ⟨by decide,
   (handleSearch_failure_displays ⟨"hi", false, false, ""⟩ 200 none (by decide)).1
     "bad input" (by decide)⟩

/-- C3: when the fetch rejects or the body fails to parse as JSON, both
handler variants hide the loading indicator and display exactly
Error: Could not connect to server in the response area (the unnamed
variant types it character by character and awaits completion). -/
theorem handleSearch_fetch_failure (ui : UIState) (status : Nat)
    (h : jsTrim ui.inputValue ≠ "") :
    ((handleSearch ui .rejected).ui.responseText = "Error: Could not connect to server"
      ∧ (handleSearch ui .rejected).ui.responseShown = true
      ∧ (handleSearch ui .rejected).ui.loadingShown = false)
    ∧ ((handleSearch ui (.resolved status none)).ui.responseText
          = "Error: Could not connect to server"
      ∧ (handleSearch ui (.resolved status none)).ui.responseShown = true
      ∧ (handleSearch ui (.resolved status none)).ui.loadingShown = false)
    ∧ ((handleSearchP0 ui .rejected).ui.responseText = "Error: Could not connect to server"
      ∧ (handleSearchP0 ui .rejected).ui.responseShown = true
      ∧ (handleSearchP0 ui .rejected).ui.loadingShown = false)
    ∧ ((handleSearchP0 ui (.resolved status none)).ui.responseText
          = "Error: Could not connect to server"
      ∧ (handleSearchP0 ui (.resolved status none)).ui.responseShown = true
      ∧ (handleSearchP0 ui (.resolved status none)).ui.loadingShown = false) := by
  simp [handleSearch, handleSearchP0, h]

/-- Witness for handleSearch_fetch_failure at a rejected fetch. -/
theorem handleSearch_fetch_failure_witness :
    (jsTrim "hi" ≠ "")
    ∧ (handleSearch ⟨"hi", false, false, ""⟩ .rejected).ui.responseText
        = "Error: Could not connect to server" :=
  ⟨by decide, (handleSearch_fetch_failure ⟨"hi", false, false, ""⟩ 200 (by decide)).1.1⟩

/-- C5 counterexample: a non-2xx status with a well-formed JSON body is
not treated as a connection error: at status 500 with success true the
handler displays the backend text, not the generic message. -/
theorem handleSearch_non2xx_not_connection_error :
    (handleSearch ⟨"hi", false, false, ""⟩
        (.resolved 500 (some ⟨true, some "hi there", none⟩))).ui.responseText = "hi there"
    ∧ (handleSearch ⟨"hi", false, false, ""⟩
        (.resolved 500 (some ⟨true, some "hi there", none⟩))).ui.responseText
      ≠ "Error: Could not connect to server" := by
  decide

/-- C5 (amended): a body that fails JSON parsing is treated as a
connection error, but the HTTP status code is never examined: for any
two statuses the handler result is identical, in both variants. -/
theorem handleSearch_status_ignored (ui : UIState) (s1 s2 : Nat) (body : Option ChatData)
    (h : jsTrim ui.inputValue ≠ "") :
    handleSearch ui (.resolved s1 body) = handleSearch ui (.resolved s2 body)
    ∧ handleSearchP0 ui (.resolved s1 body) = handleSearchP0 ui (.resolved s2 body)
    ∧ (handleSearch ui (.resolved s1 none)).ui.responseText
        = "Error: Could not connect to server"
    ∧ (handleSearchP0 ui (.resolved s1 none)).ui.responseText
        = "Error: Could not connect to server" := by
  refine ⟨rfl, rfl, ?_, ?_⟩ <;> simp [handleSearch, handleSearchP0, h]

/-- Witness for handleSearch_status_ignored: statuses 500 and 200 give
identical results, and a malformed body gives the generic message. -/
theorem handleSearch_status_ignored_witness :
    (jsTrim "hi" ≠ "")
    ∧ handleSearch ⟨"hi", false, false, ""⟩ (.resolved 500 none)
        = handleSearch ⟨"hi", false, false, ""⟩ (.resolved 200 none)
    ∧ (handleSearch ⟨"hi", false, false, ""⟩ (.resolved 500 none)).ui.responseText
        = "Error: Could not connect to server" :=
  ⟨by decide,
   (handleSearch_status_ignored ⟨"hi", false, false, ""⟩ 500 200 none (by decide)).1,
   (handleSearch_status_ignored ⟨"hi", false, false, ""⟩ 500 200 none (by decide)).2.2.1⟩

/-- One pass of the typeText loop body from the unnamed variant file
(lines 10-13): given the accumulated content and the remaining
characters, record the content after each single-character append. -/
def typeTextAppends : List Char → List Char → List (List Char)
  | _, [] => []
  | acc, c :: cs => (acc ++ [c]) :: typeTextAppends (acc ++ [c]) cs

/-- Embedding of typeText (unnamed variant file, lines 8-14): the trace
of values the element's text content takes, starting from the previous
content prev, then the clear to the empty string, then one append per
character of text; paired with the list of sleeps performed, one fixed
delay of speed milliseconds after every appended character. -/
def typeTextTrace (prev text : List Char) (speed : Nat) :
    List (List Char) × List Nat :=
  (prev :: [] :: typeTextAppends [] text, List.replicate text.length speed)

/-- The content after k loop iterations is the first k characters of the
text, independent of the accumulator only through its prefix role. -/
theorem typeTextAppends_eq (l : List Char) : ∀ acc : List Char,
    typeTextAppends acc l = (List.range l.length).map (fun k => acc ++ l.take (k + 1)) := by
  induction l with
  | nil => intro acc; rfl
  | cons c cs ih =>
      intro acc
      simp [typeTextAppends, List.range_succ_eq_map, List.map_map, ih, Function.comp]

/-- The last recorded content of the append trace is the accumulator
followed by all remaining characters. -/
theorem typeTextAppends_getLast (l : List Char) : ∀ (acc x : List Char),
    (x :: typeTextAppends acc l).getLast? = some (if l.isEmpty then x else acc ++ l) := by
  induction l with
  | nil => intro acc x; rfl
  | cons c cs ih =>
      intro acc x
      rw [typeTextAppends, List.getLast?_cons_cons, ih]
      cases cs <;> simp

/-- C8: typeText first clears any previous content, then reveals the
text one character at a time (after k characters the content is the
k-character prefix), performs one fixed delay per character, and on
completion the content equals exactly the full input text. -/
theorem typeText_spec (prev text : List Char) (speed : Nat) :
    (typeTextTrace prev text speed).1
        = prev :: (List.range (text.length + 1)).map (fun k => text.take k)
    ∧ (typeTextTrace prev text speed).1.getLast? = some text
    ∧ (typeTextTrace prev text speed).2 = List.replicate text.length speed := by
  refine ⟨?_, ?_, rfl⟩
  · simp [typeTextTrace, typeTextAppends_eq, List.range_succ_eq_map, List.map_map,
      Function.comp]
  · show (prev :: [] :: typeTextAppends [] text).getLast? = some text
    rw [List.getLast?_cons_cons, typeTextAppends_getLast]
    cases text <;> simp

/-- A 3-component vector (THREE.Vector3 / Euler), embedded over the
rationals as the idealisation of the script's float arithmetic. -/
structure Vec3 where
  x : ℚ
  y : ℚ
  z : ℚ
  deriving Repr, DecidableEq

/-- A spawned pumpkin clone: its transform plus the ad hoc
rotationVelocity property assigned at spawn time
(initPumpkins, threejs-bg.js lines 27-51). -/
structure Pumpkin where
  position : Vec3
  rotation : Vec3
  scale : Vec3
  rotationVelocity : Vec3
  deriving Repr, DecidableEq

/-- The robot model added by the second variant of the script
(lines 134-142): just its transform. -/
structure Robot where
  position : Vec3
  rotation : Vec3
  scale : Vec3
  deriving Repr, DecidableEq

/-- Per-frame pumpkin update from the first animate loop (lines 82-86):
each rotation component advances by that pumpkin's own velocity
component; nothing else is touched. -/
def animatePumpkin (p : Pumpkin) : Pumpkin :=
  { p with rotation := ⟨p.rotation.x + p.rotationVelocity.x,
                        p.rotation.y + p.rotationVelocity.y,
                        p.rotation.z + p.rotationVelocity.z⟩ }

/-- The whole per-frame pumpkin pass: forEach over the pumpkins list. -/
def animateFramePumpkins (ps : List Pumpkin) : List Pumpkin :=
  ps.map animatePumpkin

/-- Per-frame robot update from the second animate loop (lines 188-190):
when the robot is loaded its y rotation advances by 0.001; when it is
not yet loaded nothing happens. -/
def animateFrameRobot : Option Robot → Option Robot
  | none => none
  | some r =>
      some { r with rotation := { r.rotation with y := r.rotation.y + 1/1000 } }

/-- C10: every frame advances each pumpkin's three rotation components
by exactly its spawn-time per-component velocity and the loaded robot's
y rotation by exactly 0.001, leaving every position and scale (and the
stored velocities) unchanged; an unloaded robot is untouched. -/
theorem animate_rotation_only (ps : List Pumpkin) (r : Robot) :
    (∀ p : Pumpkin,
        animatePumpkin p =
          ⟨p.position,
           ⟨p.rotation.x + p.rotationVelocity.x,
            p.rotation.y + p.rotationVelocity.y,
            p.rotation.z + p.rotationVelocity.z⟩,
           p.scale, p.rotationVelocity⟩)
    ∧ animateFramePumpkins ps = ps.map animatePumpkin
    ∧ animateFrameRobot (some r) =
        some ⟨r.position,
              ⟨r.rotation.x, r.rotation.y + 1/1000, r.rotation.z⟩,
              r.scale⟩
    ∧ animateFrameRobot none = none := by
  exact ⟨fun p => rfl, rfl, rfl, rfl⟩

/-- The bounding client rect of the renderer canvas, as read by the
pointer handler. -/
structure Rect where
  left : ℚ
  top : ℚ
  width : ℚ
  height : ℚ
  deriving Repr, DecidableEq

/-- The module-level mouse vector holding normalized device coords. -/
structure Mouse where
  x : ℚ
  y : ℚ
  deriving Repr, DecidableEq

/-- Embedding of updateMouseFromEvent (threejs-bg.js lines 167-173):
maps client coordinates into the canvas rect, scales both to [0,1],
then writes mouse.x = 2x - 1 and mouse.y = -(2y) + 1. -/
def updateMouseFromEvent (rect : Rect) (clientX clientY : ℚ) : Mouse :=
  let x := (clientX - rect.left) / rect.width
  let y := (clientY - rect.top) / rect.height
  ⟨x * 2 - 1, -(y * 2) + 1⟩

/-- C9: for pointer coordinates inside the canvas rect the stored state
is in normalized device coordinates: both components lie in the closed
interval from -1 to 1, the x component strictly increases left to
right, and the y component is inverted: moving down the screen
(larger clientY) strictly decreases it, so it increases bottom to top. -/
theorem updateMouseFromEvent_ndc (rect : Rect) (cX cY cX' cY' : ℚ)
    (hw : 0 < rect.width) (hh : 0 < rect.height)
    (hx1 : rect.left ≤ cX) (hx2 : cX ≤ rect.left + rect.width)
    (hy1 : rect.top ≤ cY) (hy2 : cY ≤ rect.top + rect.height)
    (hxlt : cX < cX') (hylt : cY < cY') :
    (-1 ≤ (updateMouseFromEvent rect cX cY).x
      ∧ (updateMouseFromEvent rect cX cY).x ≤ 1)
    ∧ (-1 ≤ (updateMouseFromEvent rect cX cY).y
      ∧ (updateMouseFromEvent rect cX cY).y ≤ 1)
    ∧ (updateMouseFromEvent rect cX cY).x < (updateMouseFromEvent rect cX' cY).x
    ∧ (updateMouseFromEvent rect cX cY').y < (updateMouseFromEvent rect cX cY).y := by
  have hxl : 0 ≤ (cX - rect.left) / rect.width :=
    div_nonneg (by linarith) hw.le
  have hxu : (cX - rect.left) / rect.width ≤ 1 :=
    (div_le_one hw).2 (by linarith)
  have hyl : 0 ≤ (cY - rect.top) / rect.height :=
    div_nonneg (by linarith) hh.le
  have hyu : (cY - rect.top) / rect.height ≤ 1 :=
    (div_le_one hh).2 (by linarith)
  have hxm : (cX - rect.left) / rect.width < (cX' - rect.left) / rect.width := by
    gcongr
  have hym : (cY - rect.top) / rect.height < (cY' - rect.top) / rect.height := by
    gcongr
  simp only [updateMouseFromEvent]
  refine ⟨⟨by linarith, by linarith⟩, ⟨by linarith, by linarith⟩, by linarith, by linarith⟩

/-- Witness for updateMouseFromEvent_ndc on a unit canvas rect. -/
theorem updateMouseFromEvent_ndc_witness :
    ((0 : ℚ) < 1)
    ∧ (-1 ≤ (updateMouseFromEvent ⟨0, 0, 1, 1⟩ 0 0).x
        ∧ (updateMouseFromEvent ⟨0, 0, 1, 1⟩ 0 0).x ≤ 1)
    ∧ (updateMouseFromEvent ⟨0, 0, 1, 1⟩ 0 0).x
        < (updateMouseFromEvent ⟨0, 0, 1, 1⟩ 1 0).x :=
  ⟨zero_lt_one,
   (updateMouseFromEvent_ndc ⟨0, 0, 1, 1⟩ 0 0 1 1 zero_lt_one zero_lt_one
      (le_refl 0) (by simp) (le_refl 0) (by simp) zero_lt_one zero_lt_one).1,
   (updateMouseFromEvent_ndc ⟨0, 0, 1, 1⟩ 0 0 1 1 zero_lt_one zero_lt_one
      (le_refl 0) (by simp) (le_refl 0) (by simp) zero_lt_one zero_lt_one).2.2.1⟩

/-- Modelled from the spec: the per-frame gaze computation is missing
from the animate loop in src (of the spec's step list only the
raycaster.setFromCamera call survives there, line 185), so the ray-plane
intersection is taken from the spec's words: skip when the ray is nearly
parallel to the plane, i.e. the direction component along the depth axis
is below a small epsilon in absolute value; otherwise intersect the ray
with the plane at the object's depth. -/
def gazeEps : ℚ := 1 / 1000000

/-- Modelled from the spec: the look-at target for an object at the
given depth, from a camera ray with the given origin and direction;
none means the orientation update is skipped this frame. -/
def gazeLookAtTarget (origin dir : Vec3) (depth : ℚ) : Option Vec3 :=
  if |dir.z| < gazeEps then none
  else
    let t := (depth - origin.z) / dir.z
    some ⟨origin.x + t * dir.x, origin.y + t * dir.y, origin.z + t * dir.z⟩

/-- C7: whenever the gaze computation produces a look-at target, that
target lies exactly on the plane at the object's depth, and when the ray
direction's depth-axis component is below epsilon in absolute value no
target is produced, so the orientation is not updated that frame. -/
theorem gaze_target_on_plane (origin dir : Vec3) (depth : ℚ) :
    (∀ target : Vec3, gazeLookAtTarget origin dir depth = some target → target.z = depth)
    ∧ (|dir.z| < gazeEps → gazeLookAtTarget origin dir depth = none) := by
  constructor
  · intro target h
    by_cases hz : |dir.z| < gazeEps
    · simp [gazeLookAtTarget, hz] at h
    · have hz0 : dir.z ≠ 0 :=
        abs_pos.mp (lt_of_lt_of_le (by norm_num [gazeEps]) (not_lt.mp hz))
      simp only [gazeLookAtTarget, if_neg hz, Option.some.injEq] at h
      subst h
      show origin.z + (depth - origin.z) / dir.z * dir.z = depth
      rw [div_mul_cancel₀ _ hz0]
      ring
  · intro h
    simp [gazeLookAtTarget, h]

/-- Evaluation of the gaze computation for the camera at depth 30
looking straight along the depth axis at the plane of depth 0. -/
theorem gazeLookAtTarget_eval :
    gazeLookAtTarget ⟨0, 0, 30⟩ ⟨0, 0, 1⟩ 0 = some ⟨0, 0, 0⟩ := by
  have h1 : ¬(|(1 : ℚ)| < gazeEps) := by
    rw [abs_one]; norm_num [gazeEps]
  simp only [gazeLookAtTarget, if_neg h1, Option.some.injEq]
  norm_num

/-- Witness for gaze_target_on_plane on the ray of
gazeLookAtTarget_eval. -/
theorem gaze_target_on_plane_witness :
    gazeLookAtTarget ⟨0, 0, 30⟩ ⟨0, 0, 1⟩ 0 = some ⟨0, 0, 0⟩
    ∧ (Vec3.mk 0 0 0).z = 0 :=
  ⟨gazeLookAtTarget_eval,
   (gaze_target_on_plane ⟨0, 0, 30⟩ ⟨0, 0, 1⟩ 0).1 ⟨0, 0, 0⟩ gazeLookAtTarget_eval⟩

/-- Outcome of one loader.load call on one path. -/
inductive LoadOutcome where
  | success : LoadOutcome
  | failure : LoadOutcome
  deriving Repr, DecidableEq

/-- Trace of an asset-loading protocol run: the paths handed to
loader.load in order, and how many times the success callback and the
final error callback were invoked.  Console logging is not user
visible and is not part of the trace. -/
structure LoadResult where
  attempts : List String
  onLoadCalls : Nat
  onErrorCalls : Nat
  deriving Repr, DecidableEq

/-- Embedding of loadGLBWithFallback (threejs-bg.js lines 113-121):
load the primary path; on its error callback, warn and load the
fallback path with the same onLoad; on the fallback's error callback,
log and invoke onError once.  No further attempts are ever made. -/
def loadGLBWithFallback (path fallbackPath : String)
    (primary fallback : LoadOutcome) : LoadResult :=
  match primary with
  | .success => ⟨[path], 1, 0⟩
  | .failure =>
      match fallback with
      | .success => ⟨[path, fallbackPath], 1, 0⟩
      | .failure => ⟨[path, fallbackPath], 0, 1⟩

/-- Embedding of the pumpkin load in initPumpkins (threejs-bg.js lines
22-56): a single loader.load of pumpkin.glb whose error callback only
logs to the console; no fallback path exists for this asset. -/
def initPumpkinsLoad (primary : LoadOutcome) : LoadResult :=
  match primary with
  | .success => ⟨["pumpkin.glb"], 1, 0⟩
  | .failure => ⟨["pumpkin.glb"], 0, 1⟩

/-- C6 counterexample: the pumpkin asset is a decorative asset whose
loader, when the primary path fails, performs zero fallback attempts
(only the single primary attempt appears in the trace, and the success
callback never runs), contradicting exactly one fallback load. -/
theorem initPumpkins_no_fallback_attempt :
    (initPumpkinsLoad .failure).attempts = ["pumpkin.glb"]
    ∧ (initPumpkinsLoad .failure).attempts.length ≠ 2
    ∧ (initPumpkinsLoad .failure).onLoadCalls = 0 := by
  decide

/-- C6 (amended): for the robot asset, loaded through
loadGLBWithFallback, a failed primary load is followed by exactly one
fallback attempt; if that also fails the loader gives up after those
two attempts with the error callback run once and no success callback;
on a successful primary or fallback load the success callback runs
exactly once.  The pumpkin asset has no fallback at all. -/
theorem loadGLBWithFallback_spec (path fb : String) (fbOutcome : LoadOutcome) :
    loadGLBWithFallback path fb .success fbOutcome = ⟨[path], 1, 0⟩
    ∧ loadGLBWithFallback path fb .failure .success = ⟨[path, fb], 1, 0⟩
    ∧ loadGLBWithFallback path fb .failure .failure = ⟨[path, fb], 0, 1⟩
    ∧ (initPumpkinsLoad .failure).attempts.length = 1 := by
  refine ⟨?_, rfl, rfl, rfl⟩
  cases fbOutcome <;> rfl
